import Mathlib

/-!
Shallow embedding of the taxonomy-constrained normalization and validation
pipeline of the `ai_agent_notion_finance` repository, together with proofs of
the properties its specification states.

The definitions mirror, function by function, the Python sources:

* `app/normalizer.py` : the heuristic classifier (`_infer_outcome_from_desc`,
  `_infer_income_from_desc`), `normalize_outcome`, and the XOR resolution
  engine `enforce_xor_categories`;
* `app/models.py` : `_canon_list` and the field / cross-field validators of
  the pydantic model `ExtractedTx`.

Python `set[str]` parameters are embedded as `List String` used only through
membership and emptiness tests; Python lists are `List String`; `None` is
`Option.none`; a validator that may `raise ValueError` returns
`Except String α`. `Decimal` amounts are embedded as exact rationals (`Rat`);
calendar dates as their proleptic-Gregorian ordinal (`Int`), the same
representation `date.toordinal` uses in `models.py`.
-/

deriving instance DecidableEq for Except

/-! ## Basic string helpers -/

/-- Python `str.lower()` restricted to the ASCII range (all taxonomy strings
and synonym keys in the sources are ASCII apart from accented letters, which
are handled by `stripAccentsLower` before lowercasing matters). -/
def pyLower (s : String) : String :=
  String.mk (s.data.map Char.toLower)

/-- Python `str.upper()` restricted to the ASCII range. -/
def pyUpper (s : String) : String :=
  String.mk (s.data.map Char.toUpper)

/-- Contiguous-sublist test on character lists: `subLst pat hay` is true iff
`pat` occurs inside `hay`. This is Python's `pat in hay` on strings. -/
def subLst (pat : List Char) : List Char → Bool
  | [] => pat.isEmpty
  | c :: t => pat.isPrefixOf (c :: t) || subLst pat t

/-- Python `tok in text` (substring containment). -/
def strContains (text tok : String) : Bool :=
  subLst tok.data text.data

/-- Python `str.strip()`: drop leading and trailing whitespace. Implemented
by structural recursion on the character list so that it evaluates by kernel
reduction. -/
def pyStrip (s : String) : String :=
  String.mk
    (((s.data.dropWhile Char.isWhitespace).reverse.dropWhile Char.isWhitespace).reverse)

/-- Base letter of a precomposed accented Latin letter, as produced by NFD
decomposition followed by removal of combining marks (`unicodedata` in
`_strip_accents_lower`). Characters outside the table are their own base. -/
def baseOf (c : Char) : Char :=
  match c with
  | 'à' => 'a' | 'á' => 'a' | 'â' => 'a' | 'ä' => 'a'
  | 'è' => 'e' | 'é' => 'e' | 'ê' => 'e' | 'ë' => 'e'
  | 'ì' => 'i' | 'í' => 'i' | 'î' => 'i' | 'ï' => 'i'
  | 'ò' => 'o' | 'ó' => 'o' | 'ô' => 'o' | 'ö' => 'o'
  | 'ù' => 'u' | 'ú' => 'u' | 'û' => 'u' | 'ü' => 'u'
  | 'À' => 'A' | 'Á' => 'A' | 'È' => 'E' | 'É' => 'E'
  | 'Ì' => 'I' | 'Í' => 'I' | 'Ò' => 'O' | 'Ó' => 'O'
  | 'Ù' => 'U' | 'Ú' => 'U'
  | c => c

/-- Is `c` a Unicode combining diacritical mark (category `Mn` in the block
U+0300 – U+036F)? Those are dropped by `_strip_accents_lower`. -/
def isCombiningMark (c : Char) : Bool :=
  0x300 ≤ c.toNat && c.toNat ≤ 0x36F

/-- `_strip_accents_lower` from `app/normalizer.py`: NFD-decompose, drop
combining marks, lowercase. -/
def stripAccentsLower (s : String) : String :=
  pyLower (String.mk ((s.data.map baseOf).filter (fun c => !isCombiningMark c)))

/-! ## Synonym and keyword tables (`app/normalizer.py`) -/

def OUTCOME_SYNONYMS : List (String × String) :=
  [ ("other", "Other Outcome"),
    ("altro", "Other Outcome"),
    ("donation", "Gifts & Donations"),
    ("donazione", "Gifts & Donations") ]

def EATING_OUT_HINTS : List String :=
  [ "caffe", "caffè", "espresso", "cappuccino", "cornetto", "brioche",
    "bar", "colazione", "pranzo", "cena", "pizzeria", "ristorante",
    "aperitivo" ]

def KEYWORD_TO_OUTCOME : List (List String × String) :=
  [ ( [ "videogioco", "videogame", "gioco", "gaming", "steam", "epic",
        "epic games", "gog", "uplay", "origin", "playstation store",
        "ps store", "nintendo eshop", "xbox", "game pass" ], "Fun"),
    ( [ "supermercato", "spesa", "esselunga" ], "Supermarket"),
    ( [ "benzina", "carburante", "gas" ], "Benzina"),
    ( [ "parrucchiere", "barbiere", "taglio", "barber" ], "Barbiere"),
    ( [ "palestra", "abbonamento palestra" ], "Palestra"),
    ( [ "farmacia", "medicina", "medicinale" ], "Salute"),
    ( [ "spotify", "netflix", "abbonamento", "subscription" ], "Subscriptions"),
    ( [ "taxi", "treno", "bus", "aereo" ], "Travel"),
    ( [ "olio motore", "cambio olio", "carrozzeria", "assicurazione auto" ], "Car"),
    ( [ "regalo", "donazione", "donation" ], "Gifts & Donations"),
    ( [ "salvadanaio", "winnies" ], "Salvadanaio Winnies") ]

def KEYWORD_TO_INCOME : List (List String × String) :=
  [ ( [ "stipendio", "salary" ], "Salary"),
    ( [ "regalo", "gift" ], "Gifts"),
    ( [ "prelievo" ], "Prelievo"),
    ( [ "risparmio car" ], "Risparmio Car"),
    ( [ "risparmio" ], "Risparmio"),
    ( [ "other income" ], "Other Income") ]

/-! ## Heuristic classifier (`app/normalizer.py`) -/

/-- `_infer_outcome_from_desc`: the dedicated eating-out hint set is checked
first (and only yields its category when that category is allowed); then the
ordered keyword table is scanned, first match whose category is allowed wins. -/
def inferOutcomeFromDesc (description : String) (allowed : List String) : Option String :=
  let text := stripAccentsLower description
  if EATING_OUT_HINTS.any (fun tok => strContains text tok)
      && allowed.contains "Eating Out and Takeway" then
    some "Eating Out and Takeway"
  else
    (KEYWORD_TO_OUTCOME.find? (fun p =>
        p.1.any (fun k => strContains text k) && allowed.contains p.2)).map
      (fun p => p.2)

/-- `_infer_income_from_desc`: ordered scan of the income keyword table; a
rule fires when a keyword occurs in the text and the target category is in
`allowed` — or when `allowed` is empty (`not allowed or cat in allowed`). -/
def inferIncomeFromDesc (description : String) (allowed : List String) : Option String :=
  let text := stripAccentsLower description
  (KEYWORD_TO_INCOME.find? (fun p =>
      p.1.any (fun k => strContains text k)
        && (allowed.isEmpty || allowed.contains p.2))).map
    (fun p => p.2)

/-! ## `normalize_outcome` (`app/normalizer.py`) -/

/-- Step 1 of `normalize_outcome`: map synonyms (on the trimmed, lowercased
token) and keep only categories in `allowed`. -/
def outcomeSynFix (allowed : List String) (cs : List String) : List String :=
  cs.filterMap (fun c =>
    let c2 := (OUTCOME_SYNONYMS.lookup (pyLower (pyStrip c))).getD (pyStrip c)
    if allowed.contains c2 then some c2 else none)

/-- Order-preserving first-occurrence deduplication (the `seen` loop at the
end of `normalize_outcome`). -/
def dedupFirst (l : List String) : List String :=
  l.foldl (fun acc x => if acc.contains x then acc else acc ++ [x]) []

/-- `normalize_outcome`: synonym fixing and filtering, then inference from
the description if empty, then the hardcoded `"Other Outcome"` fallback when
still empty and the text does not look like income, then dedup; empty result
becomes `none`. -/
def normalize_outcome (outcome_list : Option (List String)) (description : String)
    (allowed : List String) : Option (List String) :=
  let fixed := outcomeSynFix allowed (outcome_list.getD [])
  let fixed :=
    if fixed.isEmpty then
      match inferOutcomeFromDesc description allowed with
      | some inferred => if allowed.contains inferred then [inferred] else []
      | none => []
    else fixed
  let looks_income := (inferIncomeFromDesc description []).isSome
  let fixed :=
    if fixed.isEmpty && !looks_income && allowed.contains "Other Outcome" then
      fixed ++ ["Other Outcome"]
    else fixed
  let deduped := dedupFirst fixed
  if deduped.isEmpty then none else some deduped

/-! ## XOR resolution engine (`app/normalizer.py`) -/

/-- `enforce_xor_categories`: filter both candidate lists to their allowed
sets, then apply the four-case tie-break policy, re-deriving text hints via
the heuristic classifier. -/
def enforce_xor_categories (description : String)
    (outcome income : Option (List String))
    (allowed_outcome allowed_income : List String) :
    Option (List String) × Option (List String) :=
  let out := (outcome.getD []).filter (fun c => allowed_outcome.contains c)
  let inc := (income.getD []).filter (fun c => allowed_income.contains c)
  let text_income := inferIncomeFromDesc description allowed_income
  let text_outcome := inferOutcomeFromDesc description allowed_outcome
  if !out.isEmpty && inc.isEmpty then
    (some out, none)
  else if !inc.isEmpty && out.isEmpty then
    (none, some inc)
  else if !out.isEmpty && !inc.isEmpty then
    match text_income with
    | some ti => (none, some (if inc.isEmpty then [ti] else inc))
    | none =>
      match text_outcome with
      | some tOut => (some (if out.isEmpty then [tOut] else out), none)
      | none => (none, some inc)
  else
    match text_outcome with
    | some c => (some [c], none)
    | none =>
      match text_income with
      | some c => (none, some [c])
      | none => (none, none)

/-! ## `_canon_list` (`app/models.py`) -/

/-- The untyped value accepted by `_canon_list`: `None`, a comma-separated
string, or a list of strings. -/
inductive CanonInput where
  | null : CanonInput
  | str (s : String) : CanonInput
  | list (l : List String) : CanonInput
deriving DecidableEq

/-- The dict comprehension `{c.lower(): c for c in allowed}`: looking up a
lowercase key yields the *last* entry of `allowed` with that lowercasing
(later dict insertions overwrite earlier ones). -/
def canonMap (allowed : List String) (key : String) : Option String :=
  (allowed.filter (fun c => pyLower c == key)).getLast?

/-- Python `str.split(sep)` for a one-character separator, on character
lists; `"".split(",") == [""]`. -/
def splitOnChar (sep : Char) : List Char → List (List Char)
  | [] => [[]]
  | c :: t =>
    let r := splitOnChar sep t
    if c = sep then [] :: r
    else
      match r with
      | [] => [[c]]
      | h :: t2 => (c :: h) :: t2

/-- The candidate tokens of `_canon_list`: split a string on commas (or take
the list), strip each element, drop the empty ones. -/
def canonItems (v : CanonInput) : List String :=
  match v with
  | .null => []
  | .str s => ((splitOnChar ',' s.data).map (fun cs => pyStrip (String.mk cs))).filter
      (fun t => t ≠ "")
  | .list l => (l.map pyStrip).filter (fun t => t ≠ "")

/-- The main loop of `_canon_list`: fold over the tokens accumulating the
canonical output list (first-seen order, deduplicated) and the list of
unknown tokens. -/
def canonScan (allowed : List String) (items : List String) : List String × List String :=
  items.foldl
    (fun acc it =>
      match canonMap allowed (pyLower it) with
      | none => (acc.1, acc.2 ++ [it])
      | some val => if acc.1.contains val then acc else (acc.1 ++ [val], acc.2))
    ([], [])

/-- `_canon_list`: `None`/`[]`/`""` give `None`; otherwise tokenize, map each
token case-insensitively to its official spelling in `allowed`, deduplicate;
if any token is unknown the whole field fails with a `ValueError` naming the
offending tokens; an empty result gives `None`. -/
def canon_list (v : CanonInput) (allowed : List String) :
    Except String (Option (List String)) :=
  if v = .null ∨ v = .list [] ∨ v = .str "" then .ok none
  else
    let items := canonItems v
    let scanned := canonScan allowed items
    if !scanned.2.isEmpty then
      .error ("unknown category: " ++ String.intercalate ", " scanned.2)
    else
      .ok (if scanned.1.isEmpty then none else some scanned.1)

/-! ## Field validators of `ExtractedTx` (`app/models.py`) -/

def ALLOWED_CURRENCIES : List String := ["EUR"]

/-- `description_not_empty` (composed with the model-wide
`str_strip_whitespace`): error when blank after trimming, otherwise the
trimmed string. -/
def description_not_empty (v : String) : Except String String :=
  if pyStrip v = "" then .error "description must not be empty"
  else .ok (pyStrip v)

/-- `Decimal.quantize(Decimal("0.01"), rounding=ROUND_HALF_UP)` on a positive
exact decimal value: the multiple of 1/100 obtained by rounding, halves
upward. -/
def roundHalfUp2 (v : Rat) : Rat :=
  ((⌊100 * v + 1 / 2⌋ : Int) : Rat) / 100

/-- `amount_positive`: error on `v ≤ 0`, otherwise round to two fractional
digits, half up. -/
def amount_positive (v : Rat) : Except String Rat :=
  if v ≤ 0 then .error "amount must be > 0"
  else .ok (roundHalfUp2 v)

/-- `currency_ok`: trim, uppercase, check membership in
`ALLOWED_CURRENCIES`. -/
def currency_ok (v : String) : Except String String :=
  let vv := pyUpper (pyStrip v)
  if !ALLOWED_CURRENCIES.contains vv then .error ("unsupported currency: " ++ v)
  else .ok vv

/-- `account_ok`: trim, check membership in the taxonomy's accounts. -/
def account_ok (accounts : List String) (v : String) : Except String String :=
  let acc := pyStrip v
  if !accounts.contains acc then .error ("unsupported account: " ++ acc)
  else .ok acc

/-- `date_in_reasonable_range`, with dates as proleptic-Gregorian ordinals
(`date.toordinal`): at most 3 days in the future, at most 366 days in the
past, relative to `today`. -/
def date_in_reasonable_range (today d : Int) : Except String Int :=
  if d > today + 3 then .error "date too far in the future"
  else if d < today - 366 then .error "date too far in the past"
  else .ok d

/-- Python truthiness of an optional list: `bool(None) = bool([]) = False`. -/
def hasCats : Option (List String) → Bool
  | some xs => !xs.isEmpty
  | none => false

/-- The cross-field model validator `xor_income_outcome`: both populated is
ambiguous, neither populated is missing, otherwise pass. -/
def xor_income_outcome (oc ic : Option (List String)) : Except String Unit :=
  if hasCats oc && hasCats ic then
    .error "a transaction cannot be both income and outcome"
  else if !(hasCats oc || hasCats ic) then
    .error "provide at least one of outcome_categories or income_categories"
  else .ok ()

/-! ## The validated model (`app/models.py`) -/

/-- The runtime taxonomy (`app/taxonomy.py`): three lists of display
strings. -/
structure Taxonomy where
  accounts : List String
  outcome_categories : List String
  income_categories : List String
deriving DecidableEq

/-- The raw candidate record handed to `ExtractedTx.model_validate`. -/
structure RawTx where
  description : String
  amount : Rat
  currency : String
  account : String
  date : Int
  outcome_categories : CanonInput
  income_categories : CanonInput
  notes : Option String
deriving DecidableEq

/-- The validated transaction (the fields of `ExtractedTx` after
validation). -/
structure ValidTx where
  description : String
  amount : Rat
  currency : String
  account : String
  date : Int
  outcome_categories : Option (List String)
  income_categories : Option (List String)
  notes : Option String
deriving DecidableEq

/-- Forget the payload of an `Except`, keeping an error if there is one. -/
def errOf {α : Type} : Except String α → Option String
  | .error e => some e
  | .ok _ => none

/-- The field-level failures of a raw record, in the field declaration order
of `ExtractedTx` (description, amount, currency, account, date, outcome
categories, income categories). -/
def fieldErrors (tax : Taxonomy) (today : Int) (r : RawTx) : List String :=
  List.filterMap id
    [ errOf (description_not_empty r.description),
      errOf (amount_positive r.amount),
      errOf (currency_ok r.currency),
      errOf (account_ok tax.accounts r.account),
      errOf (date_in_reasonable_range today r.date),
      errOf (canon_list r.outcome_categories tax.outcome_categories),
      errOf (canon_list r.income_categories tax.income_categories) ]

/-- `ExtractedTx.model_validate` under pydantic-v2 semantics: every field
validator runs (in field declaration order) and the raised `ValueError`s are
collected into one `ValidationError`; the `mode="after"` model validator
`xor_income_outcome` runs only when every field validated. -/
def model_validate (tax : Taxonomy) (today : Int) (r : RawTx) :
    Except (List String) ValidTx :=
  match description_not_empty r.description, amount_positive r.amount,
      currency_ok r.currency, account_ok tax.accounts r.account,
      date_in_reasonable_range today r.date,
      canon_list r.outcome_categories tax.outcome_categories,
      canon_list r.income_categories tax.income_categories with
  | .ok d, .ok a, .ok c, .ok acc, .ok dt, .ok oc, .ok ic =>
    match xor_income_outcome oc ic with
    | .error e => .error [e]
    | .ok _ => .ok ⟨d, a, c, acc, dt, oc, ic, r.notes.map pyStrip⟩
  | e1, e2, e3, e4, e5, e6, e7 =>
    .error (List.filterMap id
      [ errOf e1, errOf e2, errOf e3, errOf e4, errOf e5, errOf e6, errOf e7 ])

/-! ## Specification-side statements used for comparison -/

/-- The shape required of an XOR-resolution result: exactly one side a
non-empty list and the other `none`, or both `none`. -/
def XorShape (p : Option (List String) × Option (List String)) : Prop :=
  match p with
  | (some l, none) => l ≠ []
  | (none, some l) => l ≠ []
  | (none, none) => True
  | (some _, some _) => False

/-- The four-case tie-break policy of the XOR Resolution Engine, written
following the specification's wording (§4.4): one side populated after
filtering passes through; both populated is resolved by the text hints with
income winning by default; neither populated tries the expense heuristic
first and the income heuristic second. Intended to be compared with
`enforce_xor_categories`. -/
def xorResolvePolicy (description : String)
    (outcome income : Option (List String))
    (allowed_outcome allowed_income : List String) :
    Option (List String) × Option (List String) :=
  let out := (outcome.getD []).filter (fun c => allowed_outcome.contains c)
  let inc := (income.getD []).filter (fun c => allowed_income.contains c)
  if !out.isEmpty && inc.isEmpty then
    (some out, none)
  else if !inc.isEmpty && out.isEmpty then
    (none, some inc)
  else if !out.isEmpty && !inc.isEmpty then
    if (inferIncomeFromDesc description allowed_income).isSome then (none, some inc)
    else if (inferOutcomeFromDesc description allowed_outcome).isSome then (some out, none)
    else (none, some inc)
  else
    match inferOutcomeFromDesc description allowed_outcome with
    | some c => (some [c], none)
    | none =>
      match inferIncomeFromDesc description allowed_income with
      | some c => (none, some [c])
      | none => (none, none)

/-- Tokens of a `_canon_list` input that resolve to nothing in `allowed`
(case-insensitively). -/
def unknownTokens (allowed : List String) (items : List String) : List String :=
  items.filter (fun it => (canonMap allowed (pyLower it)).isNone)

/-! ## Helper lemmas -/

/-- A category returned by the outcome heuristic is always a member of the
allowed set it was called with. -/
lemma inferOutcome_allowed {d : String} {allowed : List String} {c : String}
    (h : inferOutcomeFromDesc d allowed = some c) : allowed.contains c = true := by
  simp only [inferOutcomeFromDesc] at h
  split at h
  · rename_i hcond
    simp only [Bool.and_eq_true] at hcond
    cases h
    exact hcond.2
  · rw [Option.map_eq_some'] at h
    obtain ⟨p, hfind, hc⟩ := h
    have hp := List.find?_some hfind
    simp only [Bool.and_eq_true] at hp
    subst hc
    exact hp.2

/-- A category returned by the income heuristic is a member of the allowed
set, provided that set is non-empty. -/
lemma inferIncome_allowed {d : String} {allowed : List String} {c : String}
    (hne : allowed ≠ []) (h : inferIncomeFromDesc d allowed = some c) :
    allowed.contains c = true := by
  simp only [inferIncomeFromDesc] at h
  rw [Option.map_eq_some'] at h
  obtain ⟨p, hfind, hc⟩ := h
  have hp := List.find?_some hfind
  simp only [Bool.and_eq_true, Bool.or_eq_true] at hp
  subst hc
  rcases hp.2 with h3 | h3
  · exact absurd (List.isEmpty_iff.mp h3) hne
  · exact h3

/-- Membership in a list filtered by `contains` gives `contains`. -/
lemma contains_of_mem_filter {l allowed : List String} {c : String}
    (h : c ∈ l.filter (fun x => allowed.contains x)) : allowed.contains c = true :=
  (List.mem_filter.mp h).2

/-! ## Claim theorems -/

/-- Claim C1: for every description, candidate outcome list, candidate income
list, and pair of allowed sets, the pair returned by `enforce_xor_categories`
has at most one non-empty component — exactly one of the two outputs is a
non-empty list and the other is `none`, or both outputs are `none`. -/
theorem xor_resolution_shape (description : String) (outcome income : Option (List String))
    (allowed_outcome allowed_income : List String) :
    XorShape (enforce_xor_categories description outcome income allowed_outcome allowed_income) := by
  simp only [enforce_xor_categories]
  repeat' split
  all_goals simp_all [XorShape, List.isEmpty_iff]

/-- Claim C2: `enforce_xor_categories` implements the four-case tie-break
policy of the specification (§4.4), here stated as `xorResolvePolicy`: one
side populated after filtering passes through with the other side `none`;
both populated resolves by the text heuristics with income winning on an
income hint, expense winning on an expense hint, and income winning by
default; neither populated tries the expense heuristic first, then the
income heuristic, else both outputs are `none`. -/
theorem xor_resolution_tie_break (description : String)
    (outcome income : Option (List String))
    (allowed_outcome allowed_income : List String) :
    enforce_xor_categories description outcome income allowed_outcome allowed_income
      = xorResolvePolicy description outcome income allowed_outcome allowed_income := by
  simp only [enforce_xor_categories, xorResolvePolicy]
  repeat' split
  all_goals simp_all [List.isEmpty_iff]
  all_goals tauto

/-- Claim C3: the cross-field check of the Record Validator fails with the
ambiguous-classification error whenever both category lists are non-empty,
fails with the missing-classification error whenever both are empty (or
`none`), and passes exactly when exactly one of the two lists is non-empty. -/
theorem xor_check_trichotomy (oc ic : Option (List String)) :
    (hasCats oc = true → hasCats ic = true →
      xor_income_outcome oc ic = .error "a transaction cannot be both income and outcome") ∧
    (hasCats oc = false → hasCats ic = false →
      xor_income_outcome oc ic
        = .error "provide at least one of outcome_categories or income_categories") ∧
    (xor_income_outcome oc ic = .ok () ↔ hasCats oc ≠ hasCats ic) := by
  unfold xor_income_outcome
  cases hoc : hasCats oc <;> cases hic : hasCats ic <;> simp

/-- Witness for C3 at a concrete ambiguous input. -/
theorem xor_check_trichotomy_witness :
    hasCats (some ["Fun"]) = true ∧ hasCats (some ["Salary"]) = true ∧
    xor_income_outcome (some ["Fun"]) (some ["Salary"])
      = .error "a transaction cannot be both income and outcome" :=
  ⟨by decide, by decide,
    (xor_check_trichotomy (some ["Fun"]) (some ["Salary"])).1 (by decide) (by decide)⟩

/-- Claim C4: amount validation fails for every amount ≤ 0, and for every
positive amount returns the amount rounded to a multiple of 1/100 using
round-half-up (the returned numerator `n` of hundredths is the unique
integer with `n ≤ 100v + 1/2 < n + 1`); in particular 1.005 rounds to 1.01
and 1.004 rounds to 1.00. -/
theorem amount_validation_rule (v : Rat) :
    (v ≤ 0 → amount_positive v = .error "amount must be > 0") ∧
    (0 < v →
      amount_positive v = .ok (roundHalfUp2 v) ∧
      ∃ n : Int, roundHalfUp2 v = (n : Rat) / 100 ∧
        (n : Rat) ≤ 100 * v + 1 / 2 ∧ 100 * v + 1 / 2 < (n : Rat) + 1) ∧
    amount_positive (201 / 200) = .ok (101 / 100) ∧
    amount_positive (251 / 250) = .ok 1 := by
  refine ⟨?_, ?_, ?_, ?_⟩
  · intro h
    simp [amount_positive, h]
  · intro h
    have hnle : ¬v ≤ 0 := not_le.mpr h
    exact ⟨by simp [amount_positive, hnle],
      ⟨⌊100 * v + 1 / 2⌋, rfl, Int.floor_le _, Int.lt_floor_add_one _⟩⟩
  · rw [amount_positive]
    norm_num [roundHalfUp2]
  · rw [amount_positive]
    norm_num [roundHalfUp2]

/-- Witness for C4 at concrete non-positive and positive amounts. -/
theorem amount_validation_rule_witness :
    ((-3 : Rat) ≤ 0 ∧ amount_positive (-3) = .error "amount must be > 0") ∧
    (0 < (201 : Rat) / 200 ∧ amount_positive (201 / 200) = .ok (roundHalfUp2 (201 / 200))) :=
  ⟨⟨by norm_num, (amount_validation_rule (-3)).1 (by norm_num)⟩,
   ⟨by norm_num, ((amount_validation_rule (201 / 200)).2.1 (by norm_num)).1⟩⟩

/-- Claim C5: date validation relative to `today` accepts exactly the dates
in the window [today − 366, today + 3] (both bounds inclusive) and fails
with the out-of-range errors outside it; the boundary days themselves
validate and one day beyond each boundary fails. -/
theorem date_validation_window (today d : Int) :
    (date_in_reasonable_range today d = .ok d ↔ today - 366 ≤ d ∧ d ≤ today + 3) ∧
    (today + 3 < d → date_in_reasonable_range today d = .error "date too far in the future") ∧
    (d < today - 366 → date_in_reasonable_range today d = .error "date too far in the past") ∧
    date_in_reasonable_range today (today + 3) = .ok (today + 3) ∧
    date_in_reasonable_range today (today + 4) = .error "date too far in the future" ∧
    date_in_reasonable_range today (today - 366) = .ok (today - 366) ∧
    date_in_reasonable_range today (today - 367) = .error "date too far in the past" := by
  unfold date_in_reasonable_range
  refine ⟨?_, ?_, ?_, ?_, ?_, ?_, ?_⟩
  · split_ifs with h1 h2 <;> simp <;> omega
  · intro h
    rw [if_pos h]
  · intro h
    rw [if_neg (by omega), if_pos h]
  · rw [if_neg (by omega), if_neg (by omega)]
  · rw [if_pos (by omega)]
  · rw [if_neg (by omega), if_neg (by omega)]
  · rw [if_neg (by omega), if_pos (by omega)]

/-- Witness for C5 at a concrete out-of-window date. -/
theorem date_validation_window_witness :
    ((1000 : Int) + 3 < 1004) ∧
    date_in_reasonable_range 1000 1004 = .error "date too far in the future" :=
  ⟨by norm_num, (date_validation_window 1000 1004).2.1 (by norm_num)⟩

/-- Membership form of `inferOutcome_allowed`. -/
lemma inferOutcome_mem {d : String} {ao : List String} {c : String}
    (h : inferOutcomeFromDesc d ao = some c) : c ∈ ao := by
  simpa using inferOutcome_allowed h

/-- Membership form of `inferIncome_allowed`. -/
lemma inferIncome_mem {d : String} {ai : List String} {c : String}
    (hne : ai ≠ []) (h : inferIncomeFromDesc d ai = some c) : c ∈ ai := by
  simpa using inferIncome_allowed hne h

/-- Claim C6 (amended): every expense category in the output of
`enforce_xor_categories` is in the allowed outcome set, and — provided the
allowed income set is non-empty — every income category in the output is in
the allowed income set; the outcome heuristic always returns a member of its
allowed set, and the income heuristic does so whenever its allowed set is
non-empty. -/
theorem xor_membership (d : String) (o i : Option (List String)) (ao ai : List String) :
    (∀ l c, (enforce_xor_categories d o i ao ai).1 = some l → c ∈ l → c ∈ ao) ∧
    (ai ≠ [] → ∀ l c, (enforce_xor_categories d o i ao ai).2 = some l → c ∈ l → c ∈ ai) ∧
    (∀ c, inferOutcomeFromDesc d ao = some c → c ∈ ao) ∧
    (ai ≠ [] → ∀ c, inferIncomeFromDesc d ai = some c → c ∈ ai) := by
  refine ⟨?_, ?_, fun c h => inferOutcome_mem h, fun hne c h => inferIncome_mem hne h⟩
  · intro l c hl hc
    simp only [enforce_xor_categories] at hl
    repeat' split at hl
    all_goals simp_all
    all_goals subst hl
    all_goals
      first
        | simpa using (List.mem_filter.mp hc).2
        | (simp only [List.mem_singleton] at hc
           subst hc
           exact inferOutcome_mem (by assumption))
  · intro hne l c hl hc
    simp only [enforce_xor_categories] at hl
    repeat' split at hl
    all_goals simp_all
    all_goals subst hl
    all_goals
      first
        | simpa using (List.mem_filter.mp hc).2
        | (simp only [List.mem_singleton] at hc
           subst hc
           exact inferIncome_mem hne (by assumption))

/-- The unknown-token component of the `_canon_list` fold: the tokens that
resolve to nothing, in input order, appended to the accumulator. -/
lemma canonScan_snd (allowed : List String) :
    ∀ (items out unk : List String),
      (items.foldl
        (fun acc it =>
          match canonMap allowed (pyLower it) with
          | none => (acc.1, acc.2 ++ [it])
          | some val => if acc.1.contains val then acc else (acc.1 ++ [val], acc.2))
        (out, unk)).2
      = unk ++ items.filter (fun it => (canonMap allowed (pyLower it)).isNone) := by
  intro items
  induction items with
  | nil => intro out unk; simp
  | cons x t ih =>
    intro out unk
    simp only [List.foldl_cons, List.filter_cons]
    cases hx : canonMap allowed (pyLower x) with
    | none =>
      simp only [hx, Option.isNone_none, if_true]
      rw [ih]
      simp
    | some val =>
      simp only [hx, Option.isNone_some, Bool.false_eq_true, if_false]
      split <;> rw [ih]

/-- `canonScan` collects exactly the unresolvable tokens as unknowns. -/
lemma canonScan_unknown (allowed items : List String) :
    (canonScan allowed items).2 = unknownTokens allowed items := by
  unfold canonScan unknownTokens
  simpa using canonScan_snd allowed items [] []

/-- Claim C7 (amended, for `_canon_list`): whenever any non-empty token of
the input fails to resolve case-insensitively to a member of `allowed`, the
whole field fails with the error naming the offending token(s) — never a
partial list. (`normalize_outcome`, by contrast, silently drops such
tokens.) -/
theorem canon_all_or_nothing (v : CanonInput) (allowed : List String)
    (h : unknownTokens allowed (canonItems v) ≠ []) :
    canon_list v allowed
      = .error ("unknown category: "
          ++ String.intercalate ", " (unknownTokens allowed (canonItems v))) := by
  unfold canon_list
  split
  · rename_i hv
    exfalso
    apply h
    rcases hv with hv | hv | hv <;> subst hv <;> rfl
  · have hne : (unknownTokens allowed (canonItems v)).isEmpty = false := by
      simp [List.isEmpty_iff, h]
    simp [canonScan_unknown, hne]

/-- Witness for the amended C7 at a concrete input with one unknown token. -/
theorem canon_all_or_nothing_witness :
    (unknownTokens ["Fun"] (canonItems (.list ["Fun", "zzz"]))).isEmpty = false
    ∧ canon_list (.list ["Fun", "zzz"]) ["Fun"]
      = .error ("unknown category: "
          ++ String.intercalate ", " (unknownTokens ["Fun"] (canonItems (.list ["Fun", "zzz"])))) := by
  refine ⟨by decide, ?_⟩
  exact canon_all_or_nothing _ _ (by decide)

/-- Claim C7 counterexample: `normalize_outcome` (cited by the claim as one
of the canonicalization sites, and the one that applies synonym
substitution) does not fail when a token resolves to nothing — it silently
returns the partial list of the tokens that did resolve. -/
theorem canon_partial_cex :
    normalize_outcome (some ["Groceries", "garbage"]) "x" ["Groceries", "Other Outcome"]
      = some ["Groceries"]
    ∧ ((OUTCOME_SYNONYMS.lookup (pyLower (pyStrip "garbage"))).getD (pyStrip "garbage"))
      = "garbage"
    ∧ (["Groceries", "Other Outcome"] : List String).contains "garbage" = false :=
  ⟨by decide, by decide, by decide⟩

/-- Claim C6 counterexample: with an empty allowed income set, the income
heuristic returns `"Salary"` for a salary description even though `"Salary"`
is not a member of that empty set, and `enforce_xor_categories` propagates
it to its income output. -/
theorem xor_membership_cex :
    inferIncomeFromDesc "stipendio" [] = some "Salary"
    ∧ (([] : List String).contains "Salary") = false
    ∧ enforce_xor_categories "stipendio" none none [] [] = (none, some ["Salary"]) :=
  ⟨by decide, by decide, by decide⟩

/-- Witness for the amended C6: the income side of the theorem applied at a
non-empty allowed income set. -/
theorem xor_membership_witness :
    "Salary" ∈ (["Salary"] : List String) :=
  (xor_membership "stipendio" none none [] ["Salary"]).2.1 (by decide)
    ["Salary"] "Salary" (by decide) (by decide)

/-- The `_canon_list` fold maps a list of already-canonical, pairwise
distinct tokens to itself (appended to the output accumulator), with no
unknowns. -/
lemma canonScan_fixed (allowed : List String) :
    ∀ (items out unk : List String),
      (∀ x ∈ items, canonMap allowed (pyLower x) = some x) →
      items.Nodup →
      (∀ x ∈ items, x ∉ out) →
      items.foldl
        (fun acc it =>
          match canonMap allowed (pyLower it) with
          | none => (acc.1, acc.2 ++ [it])
          | some val => if acc.1.contains val then acc else (acc.1 ++ [val], acc.2))
        (out, unk)
      = (out ++ items, unk) := by
  intro items
  induction items with
  | nil =>
    intro out unk _ _ _
    simp
  | cons x t ih =>
    intro out unk hmap hnd hout
    have hx := hmap x (by simp)
    have hxo : out.contains x = false := by
      simpa using hout x (by simp)
    have hxt : x ∉ t := (List.nodup_cons.mp hnd).1
    have h3 : ∀ y ∈ t, y ∉ out ++ [x] := by
      intro y hy
      simp only [List.mem_append, List.mem_singleton]
      rintro (hmem | rfl)
      · exact hout y (List.mem_cons_of_mem _ hy) hmem
      · exact hxt hy
    simp only [List.foldl_cons, hx, hxo, Bool.false_eq_true, if_false]
    rw [ih (out ++ [x]) unk (fun y hy => hmap y (List.mem_cons_of_mem _ hy))
      hnd.of_cons h3]
    simp

/-- Claim C9: canonicalization is idempotent — a non-empty list whose
members are already canonical (trimmed, non-empty, and mapped to themselves
by the official-casing table), with no duplicates, is returned unchanged
by `_canon_list`. -/
theorem canon_idempotent (l allowed : List String)
    (hne : l ≠ [])
    (hcanon : ∀ x ∈ l, pyStrip x = x ∧ x ≠ "" ∧ canonMap allowed (pyLower x) = some x)
    (hnd : l.Nodup) :
    canon_list (.list l) allowed = .ok (some l) := by
  have hmap : l.map pyStrip = l := by
    have h := List.map_congr_left (fun x hx => (hcanon x hx).1)
    simpa using h
  have hitems : canonItems (.list l) = l := by
    simp only [canonItems]
    rw [hmap]
    apply List.filter_eq_self.mpr
    intro x hx
    simpa using (hcanon x hx).2.1
  have hscan : canonScan allowed l = (l, []) := by
    unfold canonScan
    have h := canonScan_fixed allowed l [] []
      (fun x hx => (hcanon x hx).2.2) hnd (by intro x hx; simp)
    simpa using h
  unfold canon_list
  rw [if_neg (by simp [hne])]
  simp only [hitems, hscan]
  simp [hne, List.isEmpty_iff]

/-- Witness for C9 at a concrete already-canonical list. -/
theorem canon_idempotent_witness :
    (["Fun", "Travel"] : List String) ≠ [] ∧
    canon_list (.list ["Fun", "Travel"]) ["Fun", "Travel", "Car"]
      = .ok (some ["Fun", "Travel"]) :=
  ⟨by decide, canon_idempotent _ _ (by decide) (by decide) (by decide)⟩

/-- Claim C10: when the candidate outcome list contributes nothing (empty or
entirely unrecognized), the description matches no outcome keyword, and the
text does not look like income to the income heuristic, `normalize_outcome`
returns the hardcoded default `["Other Outcome"]` whenever that category is
allowed — instead of leaving the classification unresolved. -/
theorem normalize_outcome_default (ol : Option (List String)) (description : String)
    (allowed : List String)
    (h1 : outcomeSynFix allowed (ol.getD []) = [])
    (h2 : inferOutcomeFromDesc description allowed = none)
    (h3 : inferIncomeFromDesc description [] = none)
    (h4 : allowed.contains "Other Outcome" = true) :
    normalize_outcome ol description allowed = some ["Other Outcome"] := by
  unfold normalize_outcome
  simp only [h1, h2, h3, h4]
  simp [dedupFirst]

/-- Witness for C10 at a concrete input that matches no heuristic. -/
theorem normalize_outcome_default_witness :
    outcomeSynFix ["Other Outcome"] ((none : Option (List String)).getD []) = []
    ∧ inferOutcomeFromDesc "x" ["Other Outcome"] = none
    ∧ inferIncomeFromDesc "x" [] = none
    ∧ (["Other Outcome"] : List String).contains "Other Outcome" = true
    ∧ normalize_outcome none "x" ["Other Outcome"] = some ["Other Outcome"] :=
  ⟨by decide, by decide, by decide, by decide,
    normalize_outcome_default none "x" ["Other Outcome"]
      (by decide) (by decide) (by decide) (by decide)⟩

/-- The cross-field validator returns `ok` or one of its two error
messages. -/
lemma xor_income_outcome_cases (oc ic : Option (List String)) :
    xor_income_outcome oc ic = .ok ()
    ∨ xor_income_outcome oc ic = .error "a transaction cannot be both income and outcome"
    ∨ xor_income_outcome oc ic
        = .error "provide at least one of outcome_categories or income_categories" := by
  unfold xor_income_outcome
  split
  · right; left; rfl
  · split
    · right; right; rfl
    · left; rfl

/-- Claim C8 counterexample: a record with an empty description and a
non-positive amount is rejected with *both* failures aggregated, not only
the first applicable one. -/
theorem validate_aggregates_cex :
    model_validate ⟨["Cash"], ["Groceries"], ["Salary"]⟩ 1000
        ⟨"  ", -1, "EUR", "Cash", 1000, .list ["groceries"], .null, none⟩
      = .error ["description must not be empty", "amount must be > 0"]
    ∧ (["description must not be empty", "amount must be > 0"] : List String).length = 2 :=
  ⟨by decide, by decide⟩

/-- Claim C8 (amended): validation evaluates the field checks in the fixed
declaration order (description, amount, currency, account, date, outcome
categories, income categories) and returns the aggregate of all field
failures in that order — so the head of the error list is the first
applicable failure; the cross-field classification check runs only when
every field check passes, in which case the result is one of its two errors
(alone) or a validated transaction. -/
theorem validate_error_order (tax : Taxonomy) (today : Int) (r : RawTx) :
    (fieldErrors tax today r ≠ [] →
      model_validate tax today r = .error (fieldErrors tax today r)) ∧
    (fieldErrors tax today r = [] →
      model_validate tax today r
          = .error ["a transaction cannot be both income and outcome"]
      ∨ model_validate tax today r
          = .error ["provide at least one of outcome_categories or income_categories"]
      ∨ ∃ tx, model_validate tax today r = .ok tx) := by
  unfold model_validate fieldErrors
  cases h1 : description_not_empty r.description <;>
    cases h2 : amount_positive r.amount <;>
    cases h3 : currency_ok r.currency <;>
    cases h4 : account_ok tax.accounts r.account <;>
    cases h5 : date_in_reasonable_range today r.date <;>
    cases h6 : canon_list r.outcome_categories tax.outcome_categories <;>
    cases h7 : canon_list r.income_categories tax.income_categories <;>
    simp [errOf]
  all_goals
    rename_i oc ic
    rcases xor_income_outcome_cases oc ic with h | h | h <;> simp [h]

/-- Witness for the amended C8 at a concrete doubly-invalid record. -/
theorem validate_error_order_witness :
    fieldErrors ⟨["Cash"], ["Groceries"], ["Salary"]⟩ 1000
        ⟨" ", -2, "EUR", "Cash", 1000, .list ["groceries"], .null, none⟩ ≠ []
    ∧ model_validate ⟨["Cash"], ["Groceries"], ["Salary"]⟩ 1000
        ⟨" ", -2, "EUR", "Cash", 1000, .list ["groceries"], .null, none⟩
      = .error (fieldErrors ⟨["Cash"], ["Groceries"], ["Salary"]⟩ 1000
          ⟨" ", -2, "EUR", "Cash", 1000, .list ["groceries"], .null, none⟩) :=
  ⟨by decide, (validate_error_order _ _ _).1 (by decide)⟩

example : stripAccentsLower "Caffè al BAR" = "caffe al bar" := by decide
example : strContains "caffe al bar" "bar" = true := by decide
example : inferOutcomeFromDesc "un caffè" ["Eating Out and Takeway"]
    = some "Eating Out and Takeway" := by decide
example : inferOutcomeFromDesc "benzina" ["Benzina"] = some "Benzina" := by decide
example : inferIncomeFromDesc "stipendio" [] = some "Salary" := by decide
example : inferIncomeFromDesc "stipendio" ["Gifts"] = none := by decide
example : enforce_xor_categories "stipendio" none none [] []
    = (none, some ["Salary"]) := by decide
example : normalize_outcome (some ["Groceries", "garbage"]) "x"
    ["Groceries", "Other Outcome"] = some ["Groceries"] := by decide
example : normalize_outcome none "x" ["Other Outcome"]
    = some ["Other Outcome"] := by decide
example : canon_list (.str "groceries, DINING") ["Groceries", "Dining"]
    = .ok (some ["Groceries", "Dining"]) := by decide
example : canon_list (.list ["Groceries", "zzz"]) ["Groceries"]
    = .error "unknown category: zzz" := by decide
example : canon_list (.list []) ["Groceries"] = .ok none := by decide
example : amount_positive (12999 / 1000) = .ok 13 := by
  rw [amount_positive]
  norm_num [roundHalfUp2]
example : amount_positive (201 / 200) = .ok (101 / 100) := by
  rw [amount_positive]
  norm_num [roundHalfUp2]
example : amount_positive (251 / 250) = .ok 1 := by
  rw [amount_positive]
  norm_num [roundHalfUp2]
example : amount_positive (-3) = .error "amount must be > 0" := by decide
example : date_in_reasonable_range 1000 1003 = .ok 1003 := by decide
example : date_in_reasonable_range 1000 1004
    = .error "date too far in the future" := by decide
example :
    model_validate ⟨["Cash"], ["Groceries", "Dining"], ["Salary"]⟩ 1000
      ⟨"bought bread", 12999 / 1000, "EUR", "Cash", 1000,
        .list ["groceries"], .null, none⟩
    = .ok ⟨"bought bread", 13, "EUR", "Cash", 1000, some ["Groceries"], none, none⟩ := by
  have ha : amount_positive (12999 / 1000) = .ok 13 := by
    rw [amount_positive]
    norm_num [roundHalfUp2]
  have h1 : description_not_empty "bought bread" = .ok "bought bread" := by decide
  have h3 : currency_ok "EUR" = .ok "EUR" := by decide
  have h4 : account_ok ["Cash"] "Cash" = .ok "Cash" := by decide
  have h5 : date_in_reasonable_range 1000 1000 = .ok 1000 := by decide
  have h6 : canon_list (.list ["groceries"]) ["Groceries", "Dining"]
      = .ok (some ["Groceries"]) := by decide
  have h7 : canon_list .null ["Salary"] = .ok none := by decide
  simp [model_validate, ha, h1, h3, h4, h5, h6, h7, xor_income_outcome, hasCats]
example :
    model_validate ⟨["Cash"], ["Groceries"], ["Salary"]⟩ 1000
      ⟨"  ", -1, "EUR", "Cash", 1000, .list ["groceries"], .null, none⟩
    = .error ["description must not be empty", "amount must be > 0"] := by decide
